import Mathlib

/-
Verification development for the Midgard instruction-bundle encoder
(src/panfrost/midgard/midgard_emit.c, Mesa 20.3.4).

The encoder's functions are shallowly embedded: C machine integers become
Nat (with explicit masking where the C truncates), C structs become Lean
structures, and a C function whose body can fail a fatal assert is embedded
as an Option-valued function returning none exactly on the assert's failure
(the spec's section 7 states every such condition aborts compilation).
Bit-field structs that the C reinterprets through memcpy are embedded as the
positional value of their fields (field * 2^offset summed over disjoint
fields), which is the layout semantics the memcpy exposes.

Declarations from headers that are not under src/ (midgard.h, compiler.h,
the NIR type helpers) are modelled; each carries a doc comment starting
with "Modelled from the spec:" naming what is missing.
-/

namespace MidgardEmit

/-- Modelled from the spec: the IR type system (element bit-widths and
signed/unsigned/float base-type tags) is an external collaborator of the
encoder, declared in NIR headers absent from src/.  A type is a base kind
together with an element bit-size; `nir_alu_type_get_base_type` and
`nir_alu_type_get_type_size` are its two accessors. -/
inductive nir_base_type where
  | int
  | uint
  | float
  | boolean
deriving DecidableEq

/-- Modelled from the spec: a NIR ALU type, base kind plus bit-size. -/
structure nir_alu_type where
  base : nir_base_type
  size : Nat
deriving DecidableEq

/-- Modelled from the spec: accessor for the base kind of a NIR type. -/
def nir_alu_type_get_base_type (T : nir_alu_type) : nir_base_type := T.base

/-- Modelled from the spec: accessor for the bit-size of a NIR type. -/
def nir_alu_type_get_type_size (T : nir_alu_type) : Nat := T.size

/-- Modelled from the spec: the C source compares sources against `~0`
(all-ones 32-bit) to mean "operand unused". -/
def SRC_UNUSED : Nat := 4294967295

/-- Modelled from the spec: `midgard_int_mod` enumerants (midgard.h, not
under src/).  The source itself fixes that the literal `0` returned by
`mir_get_imod` for a full-width scalar read denotes sign-extension (its
comment at midgard_emit.c:34 reads "Sign-extension, really..."), so the
sign-extend code is 0 and is distinct from `midgard_int_normal`; beyond
that only the distinctness of the four codes is used here. -/
def midgard_int_sign_extend : Nat := 0

/-- Modelled from the spec: `midgard_int_mod` zero-extend code. -/
def midgard_int_zero_extend : Nat := 1

/-- Modelled from the spec: `midgard_int_mod` plain ("normal") code. -/
def midgard_int_normal : Nat := 2

/-- Modelled from the spec: `midgard_int_mod` left-shift code. -/
def midgard_int_shift : Nat := 3

/-- Modelled from the spec: ALU opcode enumerants for the bitwise ops used
by invert lowering (midgard.h, not under src/); only their pairwise
distinctness is relied upon. -/
def midgard_alu_op_iand : Nat := 112

/-- Modelled from the spec: AND-NOT opcode enumerant. -/
def midgard_alu_op_iandnot : Nat := 113

/-- Modelled from the spec: OR opcode enumerant. -/
def midgard_alu_op_ior : Nat := 114

/-- Modelled from the spec: OR-NOT opcode enumerant. -/
def midgard_alu_op_iornot : Nat := 115

/-- Modelled from the spec: NOR opcode enumerant. -/
def midgard_alu_op_inor : Nat := 116

/-- Modelled from the spec: NAND opcode enumerant. -/
def midgard_alu_op_inand : Nat := 117

/-- Modelled from the spec: XOR opcode enumerant. -/
def midgard_alu_op_ixor : Nat := 118

/-- Modelled from the spec: XNOR opcode enumerant. -/
def midgard_alu_op_inxor : Nat := 119

/-- Modelled from the spec: component name codes reused by the swizzle
packers ("32-bit-native component codes"); the conventional x, y, z, w
indices. -/
def COMPONENT_X : Nat := 0

/-- Modelled from the spec: component code for y. -/
def COMPONENT_Y : Nat := 1

/-- Modelled from the spec: component code for z. -/
def COMPONENT_Z : Nat := 2

/-- Modelled from the spec: component code for w. -/
def COMPONENT_W : Nat := 3

/-- Modelled from the spec: `midgard_reg_mode` enumerants (midgard.h, not
under src/): 8/16/32/64-bit register modes. -/
def midgard_reg_mode_8 : Nat := 0

/-- Modelled from the spec: 16-bit register mode. -/
def midgard_reg_mode_16 : Nat := 1

/-- Modelled from the spec: 32-bit register mode. -/
def midgard_reg_mode_32 : Nat := 2

/-- Modelled from the spec: 64-bit register mode. -/
def midgard_reg_mode_64 : Nat := 3

/-- Modelled from the spec: `midgard_condition` enumerants (midgard.h, not
under src/); only distinctness and fitting in two bits are used. -/
def midgard_condition_write0 : Nat := 0

/-- Modelled from the spec: condition code "false". -/
def midgard_condition_false : Nat := 1

/-- Modelled from the spec: condition code "true". -/
def midgard_condition_true : Nat := 2

/-- Modelled from the spec: condition code "always". -/
def midgard_condition_always : Nat := 3

/-- The encoder-visible fields of `midgard_instruction` (compiler.h):
opcode, destination and sources (index `SRC_UNUSED` when absent), the NIR
types of destination and sources, per-source swizzles (a source component
per destination lane), per-source invert/abs/negate/shift flags, the write
mask, the optional inline constant, and the output modifier.  The C arrays
of size 4 (or 3 for the invert flags) are modelled as functions from Nat;
only indices 0..3 are ever applied. -/
structure midgard_instruction where
  op : Nat
  dest : Nat
  dest_type : nir_alu_type
  src : Nat → Nat
  src_types : Nat → nir_alu_type
  swizzle : Nat → Nat → Nat
  src_invert : Nat → Bool
  src_abs : Nat → Bool
  src_neg : Nat → Bool
  src_shift : Nat → Bool
  mask : Nat
  has_inline_constant : Bool
  inline_constant : Nat
  outmod : Nat

/-- Modelled from the spec: `max_bitsize_for_alu` (compiler.h, not under
src/) — the instruction's register width, the maximum element bit-size
over the destination and every present source (the spec's "element
bit-width" awareness of section 4.1). -/
def max_bitsize_for_alu (ins : midgard_instruction) : Nat :=
  let srcmax := (List.range 4).foldl
    (fun m i => if ins.src i = SRC_UNUSED then m else max m (ins.src_types i).size) 0
  max srcmax ins.dest_type.size

/-- Modelled from the spec: `midgard_is_integer_op` (midgard_ops table, not
under src/) — whether an opcode is an integer operation; of the full table
only the bitwise opcodes appearing in this development are listed. -/
def midgard_is_integer_op (op : Nat) : Bool :=
  [midgard_alu_op_iand, midgard_alu_op_iandnot, midgard_alu_op_ior,
   midgard_alu_op_iornot, midgard_alu_op_inor, midgard_alu_op_inand,
   midgard_alu_op_ixor, midgard_alu_op_inxor].contains op

/-- Embedding of `mir_get_imod` (midgard_emit.c:29-45).  The C asserts
`!shift` in the `!half` branch; theorems over this function carry that
assert as a hypothesis. -/
def mir_get_imod (shift : Bool) (T : nir_alu_type) (half : Bool) (scalar : Bool) : Nat :=
  if !half then
    (if scalar then 0 else midgard_int_normal)
  else if shift then
    midgard_int_shift
  else if nir_alu_type_get_base_type T = nir_base_type.int then
    midgard_int_sign_extend
  else
    midgard_int_zero_extend

/-- Embedding of `mir_pack_mod` (midgard_emit.c:47-59). -/
def mir_pack_mod (ins : midgard_instruction) (i : Nat) (scalar : Bool) : Nat :=
  let integer := midgard_is_integer_op ins.op
  let base_size := max_bitsize_for_alu ins
  let sz := nir_alu_type_get_type_size (ins.src_types i)
  let half : Bool := decide (sz = base_size / 2)
  if integer then
    mir_get_imod (ins.src_shift i) (ins.src_types i) half scalar
  else
    (if ins.src_abs i then 1 else 0) ||| ((if ins.src_neg i then 1 else 0) <<< 1)

/-- Embedding of `component_from_mask` (midgard_emit.c:65-75): the first of
the 8 lane bits that is set; the C `assert(0)` on an empty mask becomes
`none`. -/
def component_from_mask (mask : Nat) : Option Nat :=
  (List.range 8).find? (fun c => mask &&& (1 <<< c) != 0)

/-- Embedding of `mir_pack_scalar_source` (midgard_emit.c:77-90).  The C
packs a `midgard_scalar_alu_src` bit-field (mod:2, full:1, component:3 —
midgard.h, not under src/) and reinterprets it through memcpy masked to 6
bits; the embedding is the positional value of those fields. -/
def mir_pack_scalar_source (mod : Nat) (is_full : Bool) (component : Nat) : Nat :=
  ((mod % 4) + (if is_full then 4 else 0) +
    ((component <<< (if is_full then 1 else 0)) % 8) * 8) % 64

/-- The encoder-visible fields of `midgard_vector_alu` (midgard.h):
zero-initialized by `vector_alu_from_instr` except for the fields it sets. -/
structure midgard_vector_alu where
  op : Nat := 0
  reg_mode : Nat := 0
  dest_override : Nat := 0
  outmod : Nat := 0
  mask : Nat := 0
  src1 : Nat := 0
  src2 : Nat := 0
deriving DecidableEq

/-- The fields of `midgard_scalar_alu` (midgard.h). -/
structure midgard_scalar_alu where
  op : Nat
  src1 : Nat
  src2 : Nat
  unknown : Nat
  outmod : Nat
  output_full : Bool
  output_component : Nat
deriving DecidableEq

/-- The scalar word `vector_to_scalar_alu` assembles from the vector word
and the selected output component, before the full-width output spacing and
the inline-constant injection (midgard_emit.c:95-115): opcode and output
modifier carried over from the vector word, both operands packed as scalar
sources (an operand is half precisely when its source type is 16-bit, the
output is full precisely when the destination type is 32-bit). -/
def vts_word (v : midgard_vector_alu) (ins : midgard_instruction) (comp : Nat) :
    midgard_scalar_alu :=
  { op := v.op,
    src1 := mir_pack_scalar_source (mir_pack_mod ins 0 true)
      (!decide (nir_alu_type_get_type_size (ins.src_types 0) = 16)) (ins.swizzle 0 comp),
    src2 := mir_pack_scalar_source (mir_pack_mod ins 1 true)
      (!decide (nir_alu_type_get_type_size (ins.src_types 1) = 16)) (ins.swizzle 1 comp),
    unknown := 0,
    outmod := v.outmod,
    output_full := decide (nir_alu_type_get_type_size ins.dest_type = 32),
    output_component := comp }

/-- The full-width output-component spacing step of `vector_to_scalar_alu`
(midgard_emit.c:117-121): full components are physically spaced out, the
asserted bound `output_component < 4` becoming `none`. -/
def vts_shift_output (s : midgard_scalar_alu) : Option midgard_scalar_alu :=
  if s.output_full then
    (if s.output_component < 4 then
      some { s with output_component := s.output_component <<< 1 }
    else none)
  else some s

/-- The inline-constant injection step of `vector_to_scalar_alu`
(midgard_emit.c:123-135): the low 12 bits of the inline constant,
redistributed into a 16-bit immediate, overwrite the second-operand slot. -/
def vts_inline (ins : midgard_instruction) (s2 : midgard_scalar_alu) :
    midgard_scalar_alu :=
  if ins.has_inline_constant then
    { s2 with src2 := (((ins.inline_constant &&& 4095) >>> 9) &&& 3) |||
                      (((ins.inline_constant &&& 4095) >>> 6) &&& 4) |||
                      (((ins.inline_constant &&& 4095) >>> 2) &&& 56) |||
                      (((ins.inline_constant &&& 4095) &&& 63) <<< 6) }
  else s2

/-- Embedding of `vector_to_scalar_alu` (midgard_emit.c:92-138), composed
from its three phases; the asserted nonempty mask inside
`component_from_mask` becomes `none`. -/
def vector_to_scalar_alu (v : midgard_vector_alu) (ins : midgard_instruction) :
    Option midgard_scalar_alu :=
  match component_from_mask ins.mask with
  | none => none
  | some comp =>
    match vts_shift_output (vts_word v ins comp) with
    | none => none
    | some s2 => some (vts_inline ins s2)

/-- Embedding of the per-component encoding inside `mir_pack_swizzle_64`
(midgard_emit.c:157-159): an odd source component encodes as the pair ZW,
an even one as the pair XY. -/
def mir_pack_swizzle_64_component (v : Nat) : Nat :=
  if v &&& 1 ≠ 0 then (COMPONENT_W <<< 2) ||| COMPONENT_Z
  else (COMPONENT_Y <<< 2) ||| COMPONENT_X

/-- Embedding of `mir_pack_swizzle_64` (midgard_emit.c:149-165); the
asserted per-component bound `swizzle[i] <= max_component` becomes `none`. -/
def mir_pack_swizzle_64 (swizzle : Nat → Nat) (max_component : Nat) : Option Nat :=
  if swizzle 0 ≤ max_component then
    if swizzle 1 ≤ max_component then
      some ((mir_pack_swizzle_64_component (swizzle 0)) |||
            ((mir_pack_swizzle_64_component (swizzle 1)) <<< 4))
    else none
  else none

/-- Modelled from the spec: `ffs(mask) - 1` for a nonzero mask — the index
of the lowest set bit (ffs is the C library find-first-set; the mask is a
32-bit quantity). -/
def ffs_minus_one (mask : Nat) : Nat :=
  ((List.range 32).find? (fun c => mask &&& (1 <<< c) != 0)).getD 0

/-- Embedding of the per-lane loop of `mir_pack_swizzle`'s sub-64-bit path
(midgard_emit.c:241-257): each visited lane contributes its swizzle source
masked to two bits; an active lane whose source is on the wrong half or out
of range fails the asserts (`none`). -/
def mir_pack_swizzle_lane (mask : Nat) (swizzle : Nat → Nat) (upper : Bool)
    (acc : Option Nat) (c : Nat) : Option Nat :=
  match acc with
  | none => none
  | some packed =>
    let v := swizzle c
    if mask &&& (1 <<< c) ≠ 0 then
      if decide (3 < v) = upper ∧ v ≤ 7 then
        some (packed ||| ((v &&& 3) <<< (2 * (c % 4))))
      else none
    else some (packed ||| ((v &&& 3) <<< (2 * (c % 4))))

/-- Embedding of `mir_pack_swizzle` (midgard_emit.c:196-277).  Returns the
packed swizzle together with the final rep_low/rep_high flags (the C
callers initialize both to false); every fatal assert and `unreachable`
becomes `none`. -/
def mir_pack_swizzle (mask : Nat) (swizzle : Nat → Nat) (T : nir_alu_type)
    (reg_mode : Nat) (op_channeled : Bool) : Option (Nat × Bool × Bool) :=
  let sz := nir_alu_type_get_type_size T
  if reg_mode = midgard_reg_mode_64 then
    if sz = 64 ∨ sz = 32 then
      let components := if sz = 32 then 4 else 2
      match mir_pack_swizzle_64 swizzle components with
      | none => none
      | some packed =>
        if sz = 32 then
          let lo : Bool := decide (COMPONENT_Z ≤ swizzle 0)
          let hi : Bool := decide (COMPONENT_Z ≤ swizzle 1)
          if mask &&& 1 ≠ 0 then
            if mask &&& 2 ≠ 0 then
              (if lo = hi then some (packed, lo, false) else none)
            else some (packed, lo, false)
          else some (packed, hi, false)
        else some (packed, false, false)
    else none
  else
    let first := if mask ≠ 0 then ffs_minus_one mask else 0
    let upper : Bool := decide (3 < swizzle first)
    if upper ∧ mask ≠ 0 ∧ ¬ (sz ≤ 16) then none
    else
      let dest_up : Bool := !op_channeled && decide (4 ≤ first)
      let cs : List Nat := if dest_up then [4, 5, 6, 7] else [0, 1, 2, 3]
      match cs.foldl (mir_pack_swizzle_lane mask swizzle upper) (some 0) with
      | none => none
      | some packed =>
        if reg_mode = midgard_reg_mode_16 ∧ sz = 16 then
          some (packed, !upper, upper)
        else if reg_mode = midgard_reg_mode_16 ∧ sz = 8 then
          some (packed, upper, upper)
        else if reg_mode = midgard_reg_mode_32 then
          some (packed, upper, false)
        else none

/-- Modelled from the spec: `reg_mode_for_bitsize` (compiler.h, not under
src/) — the register mode for an element bit-size, `unreachable` on any
other size. -/
def reg_mode_for_bitsize (bitsize : Nat) : Option Nat :=
  if bitsize = 8 then some midgard_reg_mode_8
  else if bitsize = 16 then some midgard_reg_mode_16
  else if bitsize = 32 then some midgard_reg_mode_32
  else if bitsize = 64 then some midgard_reg_mode_64
  else none

/-- Embedding of `vector_alu_srco_unsigned` (midgard helpers, layout of
`midgard_vector_alu_src` from midgard.h, not under src/): positional value
of the bit-fields mod:2, rep_low:1, rep_high:1, half:1, swizzle:8. -/
def vector_alu_srco_unsigned (mod : Nat) (rep_low rep_high half : Bool)
    (swizzle : Nat) : Nat :=
  (mod % 4) + (if rep_low then 4 else 0) + (if rep_high then 8 else 0) +
    (if half then 16 else 0) + (swizzle % 256) * 32

/-- Embedding of `vector_alu_from_instr` (midgard_emit.c:571-592): the
vector ALU word with opcode, output modifier and register mode set, and —
when an inline constant is present — src2 holding the 16-bit encoding of
the constant's low 12 bits; all other fields zero-initialized. -/
def vector_alu_from_instr (ins : midgard_instruction) : Option midgard_vector_alu :=
  match reg_mode_for_bitsize (max_bitsize_for_alu ins) with
  | none => none
  | some rm =>
    if ins.has_inline_constant then
      some { op := ins.op, outmod := ins.outmod, reg_mode := rm,
             src2 := ((((ins.inline_constant &&& 4095) >>> 8) &&& 7) |||
                      (((ins.inline_constant &&& 4095) &&& 255) <<< 3)) <<< 2 }
    else
      some { op := ins.op, outmod := ins.outmod, reg_mode := rm }

/-- Embedding of the packed source description the loop body of
`mir_pack_vector_srcs` (midgard_emit.c:293-311) computes for operand `i`:
the operand is half precisely when its size is half the instruction's
register width (`base_size >> 1`), the asserted size-compatibility check
`(sz == base_size) || half` and the asserts inside `mir_pack_swizzle` and
`reg_mode_for_bitsize` become `none`.  `channeled` models the
opcode-property table lookup `GET_CHANNEL_COUNT(alu_opcode_props[...])`
whose table is not under src/. -/
def mir_pack_vector_operand (channeled : Bool) (ins : midgard_instruction)
    (i : Nat) : Option Nat :=
  if nir_alu_type_get_type_size (ins.src_types i) = max_bitsize_for_alu ins ∨
      nir_alu_type_get_type_size (ins.src_types i) = max_bitsize_for_alu ins / 2 then
    match reg_mode_for_bitsize (max_bitsize_for_alu ins) with
    | none => none
    | some rm =>
      match mir_pack_swizzle ins.mask (ins.swizzle i) (ins.src_types i) rm channeled with
      | none => none
      | some (sw, rep_lo, rep_hi) =>
        some (vector_alu_srco_unsigned (mir_pack_mod ins i false) rep_lo rep_hi
          (decide (nir_alu_type_get_type_size (ins.src_types i) =
            max_bitsize_for_alu ins / 2)) sw)
  else none

/-- Embedding of `mir_pack_vector_srcs` (midgard_emit.c:279-318): the two
operand slots processed in order; operand 1 is skipped when an inline
constant is present, either operand is skipped when its source is unused,
and otherwise its packed description is written into src1 or src2. -/
def mir_pack_vector_srcs (channeled : Bool) (ins : midgard_instruction)
    (alu : midgard_vector_alu) : Option midgard_vector_alu :=
  match (if ins.src 0 = SRC_UNUSED then some alu
         else match mir_pack_vector_operand channeled ins 0 with
           | none => none
           | some p => some { alu with src1 := p }) with
  | none => none
  | some alu0 =>
    if ins.has_inline_constant then some alu0
    else if ins.src 1 = SRC_UNUSED then some alu0
    else match mir_pack_vector_operand channeled ins 1 with
      | none => none
      | some p => some { alu0 with src2 := p }

/-- Embedding of `mir_pack_ldst_mask` (midgard_emit.c:408-433): the 4-bit
load/store mask.  The 16-bit duplication asserts and the asserted `sz == 32`
fallback become `none`; the 4-iteration compaction loop is unrolled. -/
def mir_pack_ldst_mask (ins : midgard_instruction) : Option Nat :=
  let sz := nir_alu_type_get_type_size ins.dest_type
  if sz = 64 then
    some ((if ins.mask &&& 2 ≠ 0 then 8 ||| 4 else 0) |||
          (if ins.mask &&& 1 ≠ 0 then 2 ||| 1 else 0))
  else if sz = 16 then
    if (ins.mask &&& 1 ≠ 0 ↔ ins.mask &&& 2 ≠ 0) ∧
       (ins.mask &&& 4 ≠ 0 ↔ ins.mask &&& 8 ≠ 0) ∧
       (ins.mask &&& 16 ≠ 0 ↔ ins.mask &&& 32 ≠ 0) ∧
       (ins.mask &&& 64 ≠ 0 ↔ ins.mask &&& 128 ≠ 0) then
      some ((if ins.mask &&& 1 ≠ 0 then 1 else 0) |||
            (if ins.mask &&& 4 ≠ 0 then 2 else 0) |||
            (if ins.mask &&& 16 ≠ 0 then 4 else 0) |||
            (if ins.mask &&& 64 ≠ 0 then 8 else 0))
    else none
  else if sz = 32 then
    some ins.mask
  else none

/-- Embedding of `mir_lower_inverts` (midgard_emit.c:435-478): rewrites the
opcode of a bitwise ALU instruction according to its source invert flags;
every other opcode (and flag combination without a case) is unchanged. -/
def mir_lower_inverts (ins : midgard_instruction) : midgard_instruction :=
  let inv0 := ins.src_invert 0
  let inv1 := ins.src_invert 1
  let newop :=
    if ins.op = midgard_alu_op_iand then
      (if inv0 && inv1 then midgard_alu_op_inor
       else if inv1 then midgard_alu_op_iandnot
       else ins.op)
    else if ins.op = midgard_alu_op_ior then
      (if inv0 && inv1 then midgard_alu_op_inand
       else if inv1 then midgard_alu_op_iornot
       else ins.op)
    else if ins.op = midgard_alu_op_ixor then
      (if inv0 != inv1 then midgard_alu_op_inxor else ins.op)
    else ins.op
  { ins with op := newop }

/-- Modelled from the spec: bundle tag enumerants (compiler headers, not
under src/); texture tags sit below `TAG_LOAD_STORE_4`, ALU tags at and
above `TAG_ALU_4`. -/
def TAG_TEXTURE_4_VTX : Nat := 2

/-- Modelled from the spec: texture bundle tag. -/
def TAG_TEXTURE_4 : Nat := 3

/-- Modelled from the spec: texture-barrier bundle tag. -/
def TAG_TEXTURE_4_BARRIER : Nat := 4

/-- Modelled from the spec: load/store bundle tag. -/
def TAG_LOAD_STORE_4 : Nat := 5

/-- Modelled from the spec: smallest ALU bundle tag. -/
def TAG_ALU_4 : Nat := 8

/-- Modelled from the spec: the `IS_ALU` tag test (compiler.h, not under
src/): every tag at or above `TAG_ALU_4` is ALU-class. -/
def IS_ALU (tag : Nat) : Bool := decide (TAG_ALU_4 ≤ tag)

/-- The encoder-visible fields of `midgard_bundle` (compiler.h): the tag
and the composed instructions. -/
structure midgard_bundle where
  tag : Nat
  instructions : List midgard_instruction

/-- The encoder-visible fields of `midgard_block`: its ordered bundle
array. -/
structure midgard_block where
  bundles : List midgard_bundle

/-- The sources `mir_foreach_src` iterates over: the instruction's four
source slots. -/
def mir_srcs (ins : midgard_instruction) : List Nat :=
  [ins.src 0, ins.src 1, ins.src 2, ins.src 3]

/-- Embedding of `mir_can_run_ooo` (midgard_emit.c:364-389) for the bundle
at index `idx` of the block (the C passes a pointer into the block's bundle
array; its out-of-bounds check becomes an index check): false past the end
of the block, false for a tag that is neither ALU-class nor load/store,
false when any instruction in the bundle reads `dependency`. -/
def mir_can_run_ooo (block : midgard_block) (idx : Nat) (dependency : Nat) : Bool :=
  match block.bundles[idx]? with
  | none => false
  | some bundle =>
    if !(IS_ALU bundle.tag) && bundle.tag != TAG_LOAD_STORE_4 then false
    else !(bundle.instructions.any (fun ins => (mir_srcs ins).any (fun s => s == dependency)))

/-- Embedding of `mir_pack_tex_ooo` (midgard_emit.c:391-402) with the
texture bundle at index `idx`: the count stored into
`ins->texture.out_of_order`, the 3-iteration lookahead loop unrolled. -/
def mir_pack_tex_ooo_count (block : midgard_block) (idx : Nat) (dest : Nat) : Nat :=
  if !(mir_can_run_ooo block (idx + 1) dest) then 0
  else if !(mir_can_run_ooo block (idx + 2) dest) then 1
  else if !(mir_can_run_ooo block (idx + 3) dest) then 2
  else 3

/-- Embedding of the quadword-offset computation of `emit_branch`
(midgard_emit.c:653-678); `quadword_count` maps a block index to its
quadword length (the C walks `mir_get_block`).  Discard branches use the
fixed encoding 2, tile-buffer waits -1; a forward branch sums the lengths
of the blocks strictly between the current block and the target, a
backward branch subtracts the lengths of every block from the current one
down to the target inclusive. -/
def emit_branch_quadword_offset (quadword_count : Nat → Nat)
    (is_discard is_tilebuf_wait : Bool) (block_name target_number : Nat) : Int :=
  if is_discard then 2
  else if is_tilebuf_wait then -1
  else if block_name < target_number then
    ∑ idx in Finset.Ico (block_name + 1) target_number, (quadword_count idx : Int)
  else
    - ∑ idx in Finset.Ico target_number (block_name + 1), (quadword_count idx : Int)

/-- Embedding of the condition selection of `emit_branch`
(midgard_emit.c:687-690): always for unconditional branches, otherwise
false or true according to the inversion flag. -/
def emit_branch_condition (is_conditional is_inverted : Bool) : Nat :=
  if !is_conditional then midgard_condition_always
  else if is_inverted then midgard_condition_false
  else midgard_condition_true

/-- The fields of `midgard_branch_extended` (midgard.h); `cond` is the
16-bit condition LUT. -/
structure midgard_branch_extended where
  op : Nat
  dest_tag : Nat
  offset : Int
  cond : Nat

/-- Embedding of `midgard_create_branch_extended` (midgard_emit.c:594-623):
the single condition code replicated across the eight 2-bit LUT slots of
the 16-bit `cond` field (a uint16_t in the C). -/
def midgard_create_branch_extended (cond : Nat) (op : Nat) (dest_tag : Nat)
    (quadword_offset : Int) : midgard_branch_extended :=
  let duplicated_cond :=
    ((cond <<< 14) ||| (cond <<< 12) ||| (cond <<< 10) ||| (cond <<< 8) |||
     (cond <<< 6) ||| (cond <<< 4) ||| (cond <<< 2) ||| cond) % 65536
  { op := op, dest_tag := dest_tag, offset := quadword_offset, cond := duplicated_cond }

/-- A plain 32-bit integer AND instruction with no sources in use; the
concrete instructions the witnesses instantiate the theorems at are
variations of it. -/
def baseIns : midgard_instruction :=
  { op := midgard_alu_op_iand, dest := 0,
    dest_type := { base := nir_base_type.int, size := 32 },
    src := fun _ => SRC_UNUSED,
    src_types := fun _ => { base := nir_base_type.int, size := 32 },
    swizzle := fun _ _ => 0,
    src_invert := fun _ => false, src_abs := fun _ => false,
    src_neg := fun _ => false, src_shift := fun _ => false,
    mask := 1, has_inline_constant := false, inline_constant := 0, outmod := 0 }

/-- Concrete input for the claim C1 witness: `baseIns` carrying the inline
constant 0x0FFF. -/
def c1Ins : midgard_instruction :=
  { baseIns with has_inline_constant := true, inline_constant := 4095 }

/-- The scalar word `vector_to_scalar_alu` produces for `c1Ins` from a
zeroed vector word. -/
def c1Scalar : midgard_scalar_alu :=
  { op := 0, src1 := 4, src2 := 4095, unknown := 0, outmod := 0,
    output_full := true, output_component := 0 }

/-- Concrete input for the claim C5 witness: a 16-bit destination with
lanes 0 and 1 set, duplicated per the 16-bit convention. -/
def c5Ins : midgard_instruction :=
  { baseIns with dest_type := { base := nir_base_type.uint, size := 16 }, mask := 3 }

/-- Concrete input for the claim C6 counterexample and witness: an integer
AND whose source 0 is a full-width (32-bit) read of a signed source, no
shift requested. -/
def c6Ins : midgard_instruction := baseIns

/-- Concrete input for the claim C4 witness: a texture bundle followed by
an ALU bundle, a load/store bundle, and another texture bundle. -/
def c4Block : midgard_block :=
  { bundles := [ { tag := TAG_TEXTURE_4, instructions := [] },
                 { tag := TAG_ALU_4, instructions := [baseIns] },
                 { tag := TAG_LOAD_STORE_4, instructions := [] },
                 { tag := TAG_TEXTURE_4, instructions := [] } ] }

/-- Concrete input for the claim C7 witness: a 32-bit instruction whose
write mask selects exactly lane 2, with the identity swizzle. -/
def c7Ins : midgard_instruction :=
  { baseIns with mask := 4, swizzle := fun _ c => c }

/-- Concrete vector word for the claim C7 witness. -/
def c7V : midgard_vector_alu := { op := 5, outmod := 7 }

/-- The scalar word `vector_to_scalar_alu` produces for `c7V` and
`c7Ins`. -/
def c7S : midgard_scalar_alu :=
  { op := 5, src1 := 36, src2 := 36, unknown := 0, outmod := 7,
    output_full := true, output_component := 4 }

/-- Concrete swizzle for the claim C8 witness: lane 0 reads component 0,
every other lane component 1 — both halves agree (lower). -/
def c8Swz : Nat → Nat := fun i => if i = 0 then 0 else 1

/-- Concrete 32-bit element type for the claim C8 witness. -/
def c8T : nir_alu_type := { base := nir_base_type.float, size := 32 }

/-- Claim C3: invert lowering rewrites AND with both sources inverted to
NOR, AND with only source 2 inverted to AND-NOT, OR with both inverted to
NAND, OR with only source 2 inverted to OR-NOT, and XOR with exactly one
source inverted to XNOR; every other opcode/invert-flag combination leaves
the opcode unchanged. -/
theorem claim_C3_lower_inverts (ins : midgard_instruction) :
    (ins.op = midgard_alu_op_iand → ins.src_invert 0 = true → ins.src_invert 1 = true →
      (mir_lower_inverts ins).op = midgard_alu_op_inor) ∧
    (ins.op = midgard_alu_op_iand → ins.src_invert 0 = false → ins.src_invert 1 = true →
      (mir_lower_inverts ins).op = midgard_alu_op_iandnot) ∧
    (ins.op = midgard_alu_op_ior → ins.src_invert 0 = true → ins.src_invert 1 = true →
      (mir_lower_inverts ins).op = midgard_alu_op_inand) ∧
    (ins.op = midgard_alu_op_ior → ins.src_invert 0 = false → ins.src_invert 1 = true →
      (mir_lower_inverts ins).op = midgard_alu_op_iornot) ∧
    (ins.op = midgard_alu_op_ixor → ins.src_invert 0 ≠ ins.src_invert 1 →
      (mir_lower_inverts ins).op = midgard_alu_op_inxor) ∧
    (ins.op = midgard_alu_op_iand → ins.src_invert 1 = false →
      (mir_lower_inverts ins).op = ins.op) ∧
    (ins.op = midgard_alu_op_ior → ins.src_invert 1 = false →
      (mir_lower_inverts ins).op = ins.op) ∧
    (ins.op = midgard_alu_op_ixor → ins.src_invert 0 = ins.src_invert 1 →
      (mir_lower_inverts ins).op = ins.op) ∧
    (ins.op ≠ midgard_alu_op_iand → ins.op ≠ midgard_alu_op_ior →
      ins.op ≠ midgard_alu_op_ixor → (mir_lower_inverts ins).op = ins.op) := by
  refine ⟨?_, ?_, ?_, ?_, ?_, ?_, ?_, ?_, ?_⟩
  · intro h1 h2 h3
    simp [mir_lower_inverts, h1, h2, h3, midgard_alu_op_iand, midgard_alu_op_ior,
      midgard_alu_op_ixor, midgard_alu_op_inor]
  · intro h1 h2 h3
    simp [mir_lower_inverts, h1, h2, h3, midgard_alu_op_iand, midgard_alu_op_ior,
      midgard_alu_op_ixor, midgard_alu_op_iandnot]
  · intro h1 h2 h3
    simp [mir_lower_inverts, h1, h2, h3, midgard_alu_op_iand, midgard_alu_op_ior,
      midgard_alu_op_ixor, midgard_alu_op_inand]
  · intro h1 h2 h3
    simp [mir_lower_inverts, h1, h2, h3, midgard_alu_op_iand, midgard_alu_op_ior,
      midgard_alu_op_ixor, midgard_alu_op_iornot]
  · intro h1 h2
    have h3 : ins.src_invert 0 != ins.src_invert 1 := by
      cases hv : ins.src_invert 0 <;> cases hw : ins.src_invert 1 <;>
        simp_all
    simp [mir_lower_inverts, h1, h3, midgard_alu_op_iand, midgard_alu_op_ior,
      midgard_alu_op_ixor]
  · intro h1 h2
    simp [mir_lower_inverts, h1, h2, midgard_alu_op_iand, midgard_alu_op_ior,
      midgard_alu_op_ixor]
  · intro h1 h2
    simp [mir_lower_inverts, h1, h2, midgard_alu_op_iand, midgard_alu_op_ior,
      midgard_alu_op_ixor]
  · intro h1 h2
    simp [mir_lower_inverts, h1, h2, midgard_alu_op_iand, midgard_alu_op_ior,
      midgard_alu_op_ixor]
  · intro h1 h2 h3
    simp [mir_lower_inverts, h1, h2, h3]

/-- Claim C3 witness: an AND with only source 2 inverted is rewritten to
AND-NOT. -/
theorem claim_C3_witness :
    (mir_lower_inverts { baseIns with src_invert := fun i => i = 1 }).op =
      midgard_alu_op_iandnot :=
  (claim_C3_lower_inverts { baseIns with src_invert := fun i => i = 1 }).2.1
    rfl (by decide) (by decide)

/-- Claim C2 counterexample: with two adjacent blocks of quadword length 1
each, the forward offset from block 0 to block 1 is 0 while the backward
offset from block 1 to block 0 is -2, so the two are not negations of each
other (there are no blocks, in particular no zero-length blocks, between
the two). -/
theorem claim_C2_counterexample :
    (emit_branch_quadword_offset (fun _ => 1) false false 0 1 =
      - emit_branch_quadword_offset (fun _ => 1) false false 1 0) = False :=
  eq_false (by decide)

/-- Claim C2 (amended): for a normal branch between distinct blocks A < B,
the backward offset B to A equals the negation of the forward offset A to B
plus the quadword counts of the two endpoint blocks themselves — the
forward walk covers only the blocks strictly between the two, while the
backward walk also crosses the source and target blocks. -/
theorem claim_C2_amended_offset_antisymmetry (quadword_count : Nat → Nat)
    (A B : Nat) (hAB : A < B) :
    emit_branch_quadword_offset quadword_count false false B A =
      - (emit_branch_quadword_offset quadword_count false false A B
         + (quadword_count A : Int) + (quadword_count B : Int)) := by
  simp only [emit_branch_quadword_offset, Bool.false_eq_true, if_false]
  rw [if_neg (by omega : ¬ (B < A)), if_pos hAB,
    Finset.sum_Ico_succ_top (le_of_lt hAB),
    Finset.sum_eq_sum_Ico_succ_bot hAB]
  ring

/-- Claim C2 witness: the amended relation at two adjacent blocks of length
1 each. -/
theorem claim_C2_witness :
    emit_branch_quadword_offset (fun _ => 1) false false 1 0 =
      - (emit_branch_quadword_offset (fun _ => 1) false false 0 1 + 1 + 1) :=
  claim_C2_amended_offset_antisymmetry (fun _ => 1) 0 1 (by decide)

/-- Claim C5: the load/store mask packs a 64-bit destination by expanding
logical lane 0 to bits 0 and 1 and lane 1 to bits 2 and 3; a 16-bit
destination, under the asserted precondition that every lane bit is
duplicated across its bit pair, compacts back to one bit per lane (in
particular input mask 0b11 gives 0b0001); a 32-bit destination passes
through unchanged. -/
theorem claim_C5_ldst_mask (ins : midgard_instruction) :
    (nir_alu_type_get_type_size ins.dest_type = 64 →
      mir_pack_ldst_mask ins =
        some ((if ins.mask &&& 2 ≠ 0 then 12 else 0) |||
              (if ins.mask &&& 1 ≠ 0 then 3 else 0))) ∧
    (nir_alu_type_get_type_size ins.dest_type = 16 →
      (ins.mask &&& 1 ≠ 0 ↔ ins.mask &&& 2 ≠ 0) →
      (ins.mask &&& 4 ≠ 0 ↔ ins.mask &&& 8 ≠ 0) →
      (ins.mask &&& 16 ≠ 0 ↔ ins.mask &&& 32 ≠ 0) →
      (ins.mask &&& 64 ≠ 0 ↔ ins.mask &&& 128 ≠ 0) →
      mir_pack_ldst_mask ins =
        some ((if ins.mask &&& 1 ≠ 0 then 1 else 0) |||
              (if ins.mask &&& 4 ≠ 0 then 2 else 0) |||
              (if ins.mask &&& 16 ≠ 0 then 4 else 0) |||
              (if ins.mask &&& 64 ≠ 0 then 8 else 0))) ∧
    (nir_alu_type_get_type_size ins.dest_type = 16 → ins.mask = 3 →
      mir_pack_ldst_mask ins = some 1) ∧
    (nir_alu_type_get_type_size ins.dest_type = 32 →
      mir_pack_ldst_mask ins = some ins.mask) := by
  refine ⟨?_, ?_, ?_, ?_⟩
  · intro h
    simp [mir_pack_ldst_mask, h]
  · intro h h1 h2 h3 h4
    simp only [mir_pack_ldst_mask, h]
    rw [if_neg (by norm_num : ¬ ((16 : Nat) = 64))]
    simp only [if_true]
    rw [if_pos ⟨h1, h2, h3, h4⟩]
  · intro h hm
    simp only [mir_pack_ldst_mask, h, hm]
    decide
  · intro h
    simp [mir_pack_ldst_mask, h]

/-- Claim C5 witness: the 16-bit compaction at destination width 16 and
mask 0b11 produces 0b0001. -/
theorem claim_C5_witness : mir_pack_ldst_mask c5Ins = some 1 :=
  (claim_C5_ldst_mask c5Ins).2.2.1 (by decide) rfl

/-- Claim C9: an extended branch word's 16-bit condition field is the
single selected condition code replicated identically across all eight
2-bit LUT slots, and the selected code is "always" for unconditional
branches and "false" or "true" per the inversion flag for conditional
ones. -/
theorem claim_C9_extended_branch_condition
    (is_conditional is_inverted : Bool) (op dest_tag : Nat) (off : Int)
    (j : Nat) (hj : j < 8) :
    ((midgard_create_branch_extended (emit_branch_condition is_conditional is_inverted)
        op dest_tag off).cond >>> (2 * j)) &&& 3 =
      emit_branch_condition is_conditional is_inverted ∧
    emit_branch_condition false is_inverted = midgard_condition_always ∧
    emit_branch_condition true true = midgard_condition_false ∧
    emit_branch_condition true false = midgard_condition_true := by
  refine ⟨?_, ?_, ?_, ?_⟩
  · have hc : ∀ (c o t : Nat) (f : Int), (midgard_create_branch_extended c o t f).cond =
        ((c <<< 14) ||| (c <<< 12) ||| (c <<< 10) ||| (c <<< 8) ||| (c <<< 6) |||
         (c <<< 4) ||| (c <<< 2) ||| c) % 65536 := fun _ _ _ _ => rfl
    rw [hc]
    cases is_conditional <;> cases is_inverted <;> interval_cases j <;> decide
  · cases is_inverted <;> decide
  · decide
  · decide

/-- Claim C9 witness: slot 5 of an inverted conditional branch's condition
field holds the "false" code. -/
theorem claim_C9_witness :
    ((midgard_create_branch_extended (emit_branch_condition true true) 2 8 0).cond
        >>> (2 * 5)) &&& 3 = emit_branch_condition true true ∧
    emit_branch_condition false true = midgard_condition_always ∧
    emit_branch_condition true true = midgard_condition_false ∧
    emit_branch_condition true false = midgard_condition_true :=
  claim_C9_extended_branch_condition true true 2 8 0 5 (by decide)

/-- Helper: whatever scalar word `vector_to_scalar_alu` returns is the
inline-injection phase applied to some intermediate word. -/
theorem vector_to_scalar_alu_eq_inline (v : midgard_vector_alu)
    (ins : midgard_instruction) (s : midgard_scalar_alu)
    (hs : vector_to_scalar_alu v ins = some s) :
    ∃ s2, s = vts_inline ins s2 := by
  unfold vector_to_scalar_alu at hs
  split at hs
  · simp at hs
  · split at hs
    · simp at hs
    · injection hs with h
      exact ⟨_, h.symm⟩

/-- Claim C1: whenever an instruction carries an inline constant, scalar
demotion sets the scalar word's second-operand field to the 16-bit value
obtained from the low 12 bits c of the constant by the fixed redistribution
imm = ((c>>9)&3) | ((c>>6)&4) | ((c>>2)&0x38) | ((c&63)<<6); in particular
a constant with low 12 bits 0x0FFF always produces the fixed pattern 0x0FFF
regardless of every other instruction field. -/
theorem claim_C1_inline_constant_scalar_redistribution
    (v : midgard_vector_alu) (ins : midgard_instruction) (s : midgard_scalar_alu)
    (hc : ins.has_inline_constant = true)
    (hs : vector_to_scalar_alu v ins = some s) :
    s.src2 = ((((ins.inline_constant &&& 4095) >>> 9) &&& 3) |||
              (((ins.inline_constant &&& 4095) >>> 6) &&& 4) |||
              (((ins.inline_constant &&& 4095) >>> 2) &&& 56) |||
              (((ins.inline_constant &&& 4095) &&& 63) <<< 6)) ∧
    (ins.inline_constant &&& 4095 = 4095 → s.src2 = 4095) := by
  obtain ⟨s2, rfl⟩ := vector_to_scalar_alu_eq_inline v ins s hs
  constructor
  · simp [vts_inline, hc]
  · intro h47
    simp [vts_inline, hc, h47]
    decide

/-- Claim C1 witness: the scalar word demoted from `c1Ins` (inline constant
0x0FFF) carries src2 = 0x0FFF. -/
theorem claim_C1_witness :
    c1Scalar.src2 = ((((c1Ins.inline_constant &&& 4095) >>> 9) &&& 3) |||
              (((c1Ins.inline_constant &&& 4095) >>> 6) &&& 4) |||
              (((c1Ins.inline_constant &&& 4095) >>> 2) &&& 56) |||
              (((c1Ins.inline_constant &&& 4095) &&& 63) <<< 6)) ∧
    (c1Ins.inline_constant &&& 4095 = 4095 → c1Scalar.src2 = 4095) :=
  claim_C1_inline_constant_scalar_redistribution {} c1Ins c1Scalar rfl (by decide)

/-- Claim C6 counterexample: for a full-width (non-half) integer read
packed for the scalar unit — source 0 of `c6Ins` — the modifier code is the
sign-extend code 0 (the source's own comment on the returned literal reads
"Sign-extension, really..."), not the plain code the claim prescribes for
every non-half-width read. -/
theorem claim_C6_counterexample :
    mir_pack_mod c6Ins 0 true = midgard_int_sign_extend ∧
    midgard_int_sign_extend ≠ midgard_int_normal := by
  decide

/-- Claim C6 (amended): for an integer operand the modifier is chosen as:
shift requested (only legal on a half-width read, asserted) gives the shift
code; otherwise a non-half-width read gives the plain code when packing for
the vector unit but the sign-extend code 0 when packing for the scalar
unit; otherwise a half-width read gives sign-extend for a signed source
type and zero-extend for any other. -/
theorem claim_C6_integer_modifier_selection (shift : Bool) (T : nir_alu_type)
    (half scalar : Bool) (hshift : shift = true → half = true) :
    mir_get_imod shift T half scalar =
      (if shift then midgard_int_shift
       else if half = false then
         (if scalar then midgard_int_sign_extend else midgard_int_normal)
       else if nir_alu_type_get_base_type T = nir_base_type.int then
         midgard_int_sign_extend
       else midgard_int_zero_extend) := by
  cases half
  · cases shift
    · cases scalar <;> simp [mir_get_imod, midgard_int_sign_extend]
    · exact absurd (hshift rfl) (by simp)
  · cases shift <;> simp [mir_get_imod]

/-- Claim C6 witness: the amended selection at a requested shift on a
half-width unsigned read for the vector unit. -/
theorem claim_C6_witness :
    mir_get_imod true { base := nir_base_type.uint, size := 16 } true false =
      (if true then midgard_int_shift
       else if true = false then
         (if false then midgard_int_sign_extend else midgard_int_normal)
       else if nir_alu_type_get_base_type { base := nir_base_type.uint, size := 16 } =
           nir_base_type.int then
         midgard_int_sign_extend
       else midgard_int_zero_extend) :=
  claim_C6_integer_modifier_selection true { base := nir_base_type.uint, size := 16 }
    true false (fun _ => rfl)

/-- Helper: the out-of-order check only passes at indices that lie inside
the block's bundle list. -/
theorem mir_can_run_ooo_lt_length (block : midgard_block) (k dest : Nat)
    (h : mir_can_run_ooo block k dest = true) : k < block.bundles.length := by
  by_contra hk
  push_neg at hk
  unfold mir_can_run_ooo at h
  rw [List.getElem?_eq_none hk] at h
  simp at h

/-- Helper: the out-of-order check fails on a bundle whose tag is neither
ALU-class nor load/store, and on a bundle that reads the dependency. -/
theorem mir_can_run_ooo_false_of (block : midgard_block) (k dest : Nat)
    (b : midgard_bundle) (hb : block.bundles[k]? = some b)
    (hcond : (IS_ALU b.tag = false ∧ b.tag ≠ TAG_LOAD_STORE_4) ∨
      b.instructions.any (fun i => (mir_srcs i).any (fun src => src == dest)) = true) :
    mir_can_run_ooo block k dest = false := by
  unfold mir_can_run_ooo
  rw [hb]
  rcases hcond with ⟨ha, hl⟩ | hr
  · simp [ha, bne_iff_ne, hl]
  · simp [hr]

/-- Claim C4: the recorded out-of-order depth is at most 3, counts exactly
the consecutive immediately-following bundles that pass the check up to the
first failure, is 0 whenever the immediately following bundle's tag is
neither ALU-class nor load/store-class or any of its instructions reads the
texture instruction's destination, and never reaches past the end of the
block's bundle list. -/
theorem claim_C4_tex_ooo (block : midgard_block) (idx dest : Nat) :
    mir_pack_tex_ooo_count block idx dest ≤ 3 ∧
    (∀ j, j < mir_pack_tex_ooo_count block idx dest →
      mir_can_run_ooo block (idx + 1 + j) dest = true) ∧
    (mir_pack_tex_ooo_count block idx dest < 3 →
      mir_can_run_ooo block (idx + 1 + mir_pack_tex_ooo_count block idx dest) dest = false) ∧
    (∀ b, block.bundles[idx + 1]? = some b →
      ((IS_ALU b.tag = false ∧ b.tag ≠ TAG_LOAD_STORE_4) ∨
        b.instructions.any (fun i => (mir_srcs i).any (fun src => src == dest)) = true) →
      mir_pack_tex_ooo_count block idx dest = 0) ∧
    (0 < mir_pack_tex_ooo_count block idx dest →
      idx + mir_pack_tex_ooo_count block idx dest < block.bundles.length) := by
  have e1 : idx + 1 + 0 = idx + 1 := by omega
  have e2 : idx + 1 + 1 = idx + 2 := by omega
  have e3 : idx + 1 + 2 = idx + 3 := by omega
  have hzero : ∀ b, block.bundles[idx + 1]? = some b →
      ((IS_ALU b.tag = false ∧ b.tag ≠ TAG_LOAD_STORE_4) ∨
        b.instructions.any (fun i => (mir_srcs i).any (fun src => src == dest)) = true) →
      mir_pack_tex_ooo_count block idx dest = 0 := by
    intro b hb hcond
    have hfalse := mir_can_run_ooo_false_of block (idx + 1) dest b hb hcond
    simp [mir_pack_tex_ooo_count, hfalse]
  cases h1 : mir_can_run_ooo block (idx + 1) dest with
  | false =>
    have hn : mir_pack_tex_ooo_count block idx dest = 0 := by
      simp [mir_pack_tex_ooo_count, h1]
    refine ⟨by rw [hn]; try omega, ?_, ?_, hzero, ?_⟩
    · intro j hj
      rw [hn] at hj
      exact absurd hj (by omega)
    · intro _
      rw [hn, e1]
      exact h1
    · intro h
      rw [hn] at h
      exact absurd h (by omega)
  | true =>
    cases h2 : mir_can_run_ooo block (idx + 2) dest with
    | false =>
      have hn : mir_pack_tex_ooo_count block idx dest = 1 := by
        simp [mir_pack_tex_ooo_count, h1, h2]
      refine ⟨by rw [hn]; try omega, ?_, ?_, hzero, ?_⟩
      · intro j hj
        rw [hn] at hj
        have hj0 : j = 0 := by omega
        rw [hj0, e1]
        exact h1
      · intro _
        rw [hn, e2]
        exact h2
      · intro _
        rw [hn]
        have := mir_can_run_ooo_lt_length block (idx + 1) dest h1
        omega
    | true =>
      cases h3 : mir_can_run_ooo block (idx + 3) dest with
      | false =>
        have hn : mir_pack_tex_ooo_count block idx dest = 2 := by
          simp [mir_pack_tex_ooo_count, h1, h2, h3]
        refine ⟨by rw [hn]; try omega, ?_, ?_, hzero, ?_⟩
        · intro j hj
          rw [hn] at hj
          interval_cases j
          · rw [e1]; exact h1
          · rw [e2]; exact h2
        · intro _
          rw [hn, e3]
          exact h3
        · intro _
          rw [hn]
          have := mir_can_run_ooo_lt_length block (idx + 2) dest h2
          omega
      | true =>
        have hn : mir_pack_tex_ooo_count block idx dest = 3 := by
          simp [mir_pack_tex_ooo_count, h1, h2, h3]
        refine ⟨by rw [hn]; try omega, ?_, ?_, hzero, ?_⟩
        · intro j hj
          rw [hn] at hj
          interval_cases j
          · rw [e1]; exact h1
          · rw [e2]; exact h2
          · rw [e3]; exact h3
        · intro h
          rw [hn] at h
          exact absurd h (by omega)
        · intro _
          rw [hn]
          have := mir_can_run_ooo_lt_length block (idx + 3) dest h3
          omega

/-- Claim C4 witness: the out-of-order depth computed over `c4Block` is
within the hard bound 3. -/
theorem claim_C4_witness : mir_pack_tex_ooo_count c4Block 0 0 ≤ 3 :=
  (claim_C4_tex_ooo c4Block 0 0).1

/-- Helper: on a one-hot mask the selected component is the set lane. -/
theorem component_from_mask_single (l : Nat) (hl : l < 8) :
    component_from_mask (1 <<< l) = some l := by
  interval_cases l <;> decide

/-- Helper: `vector_to_scalar_alu` under a known selected component. -/
theorem vector_to_scalar_alu_some_comp (v : midgard_vector_alu)
    (ins : midgard_instruction) (comp : Nat)
    (h : component_from_mask ins.mask = some comp) :
    vector_to_scalar_alu v ins =
      (match vts_shift_output (vts_word v ins comp) with
       | none => none
       | some s2 => some (vts_inline ins s2)) := by
  unfold vector_to_scalar_alu
  rw [h]

/-- Helper: the component sub-field (bits 3 to 5) of a packed scalar
source is the source component, spaced out by one bit when the operand is
full-width. -/
theorem mir_pack_scalar_source_component (mod : Nat) (is_full : Bool)
    (component : Nat) :
    (mir_pack_scalar_source mod is_full component / 8) % 8 =
      (component <<< (if is_full then 1 else 0)) % 8 := by
  unfold mir_pack_scalar_source
  cases is_full <;> simp [Nat.shiftLeft_eq] <;> omega

/-- Helper: the inline-injection phase only ever changes src2. -/
theorem vts_inline_preserves (ins : midgard_instruction) (s2 : midgard_scalar_alu) :
    (vts_inline ins s2).op = s2.op ∧ (vts_inline ins s2).outmod = s2.outmod ∧
    (vts_inline ins s2).src1 = s2.src1 ∧
    (vts_inline ins s2).output_component = s2.output_component ∧
    (ins.has_inline_constant = false → (vts_inline ins s2).src2 = s2.src2) := by
  cases hic : ins.has_inline_constant <;> simp [vts_inline, hic]

/-- Claim C7: for a vector-ALU instruction whose write mask has exactly
one active lane l, scalar demotion uses l as the scalar word's output
component (shifted left by 1 when the output is full 32-bit width), packs
each operand's source component shifted left by 1 exactly when that
operand is full-width (its component sub-field occupying bits 3 to 5 of
the packed source), and preserves the vector word's opcode and output
modifier. -/
theorem claim_C7_scalar_demotion_single_lane
    (v : midgard_vector_alu) (ins : midgard_instruction) (l : Nat)
    (hl : l < 8) (hm : ins.mask = 1 <<< l)
    (s : midgard_scalar_alu) (hs : vector_to_scalar_alu v ins = some s) :
    s.op = v.op ∧ s.outmod = v.outmod ∧
    s.output_component =
      (if nir_alu_type_get_type_size ins.dest_type = 32 then l <<< 1 else l) ∧
    (s.src1 / 8) % 8 =
      (ins.swizzle 0 l <<<
        (if nir_alu_type_get_type_size (ins.src_types 0) = 16 then 0 else 1)) % 8 ∧
    (ins.has_inline_constant = false →
      (s.src2 / 8) % 8 =
        (ins.swizzle 1 l <<<
          (if nir_alu_type_get_type_size (ins.src_types 1) = 16 then 0 else 1)) % 8) := by
  rw [vector_to_scalar_alu_some_comp v ins l (by rw [hm]; exact component_from_mask_single l hl)] at hs
  split at hs
  · simp at hs
  · rename_i s2 hso
    injection hs with hss
    subst hss
    unfold vts_shift_output at hso
    obtain ⟨hop, hout, hsrc1, hcomp, hsrc2⟩ := vts_inline_preserves ins s2
    split at hso
    · rename_i hfull
      split at hso
      · injection hso with hs2
        subst hs2
        have hdest : nir_alu_type_get_type_size ins.dest_type = 32 := by
          simpa [vts_word] using hfull
        refine ⟨?_, ?_, ?_, ?_, ?_⟩
        · rw [hop]; simp [vts_word]
        · rw [hout]; simp [vts_word]
        · rw [hcomp, if_pos hdest]; simp [vts_word]
        · rw [hsrc1]
          by_cases h16 : nir_alu_type_get_type_size (ins.src_types 0) = 16 <;>
            simp [vts_word, h16, mir_pack_scalar_source_component]
        · intro hic
          rw [hsrc2 hic]
          by_cases h16 : nir_alu_type_get_type_size (ins.src_types 1) = 16 <;>
            simp [vts_word, h16, mir_pack_scalar_source_component]
      · simp at hso
    · rename_i hfull
      injection hso with hs2
      subst hs2
      have hdest : ¬ (nir_alu_type_get_type_size ins.dest_type = 32) := by
        simpa [vts_word] using hfull
      refine ⟨?_, ?_, ?_, ?_, ?_⟩
      · rw [hop]; simp [vts_word]
      · rw [hout]; simp [vts_word]
      · rw [hcomp, if_neg hdest]; simp [vts_word]
      · rw [hsrc1]
        by_cases h16 : nir_alu_type_get_type_size (ins.src_types 0) = 16 <;>
          simp [vts_word, h16, mir_pack_scalar_source_component]
      · intro hic
        rw [hsrc2 hic]
        by_cases h16 : nir_alu_type_get_type_size (ins.src_types 1) = 16 <;>
          simp [vts_word, h16, mir_pack_scalar_source_component]

/-- Claim C7 witness: the demotion of `c7V`/`c7Ins` (single active lane 2,
full-width output and operands). -/
theorem claim_C7_witness :
    c7S.op = c7V.op ∧ c7S.outmod = c7V.outmod ∧
    c7S.output_component =
      (if nir_alu_type_get_type_size c7Ins.dest_type = 32 then 2 <<< 1 else 2) ∧
    (c7S.src1 / 8) % 8 =
      (c7Ins.swizzle 0 2 <<<
        (if nir_alu_type_get_type_size (c7Ins.src_types 0) = 16 then 0 else 1)) % 8 ∧
    (c7Ins.has_inline_constant = false →
      (c7S.src2 / 8) % 8 =
        (c7Ins.swizzle 1 2 <<<
          (if nir_alu_type_get_type_size (c7Ins.src_types 1) = 16 then 0 else 1)) % 8) :=
  claim_C7_scalar_demotion_single_lane c7V c7Ins 2 (by decide) (by decide) c7S (by decide)

/-- Claim C8: packing a swizzle in 64-bit register mode over a 32-bit
element type with both logical lanes active in the mask fails the fatal
assertion when the two lanes select different halves, and otherwise
records the common half in the replicate-low flag. -/
theorem claim_C8_swizzle_64_mixed_halves
    (mask : Nat) (swz : Nat → Nat) (T : nir_alu_type) (chan : Bool)
    (hsz : nir_alu_type_get_type_size T = 32)
    (h0 : swz 0 ≤ 4) (h1 : swz 1 ≤ 4)
    (hm0 : mask &&& 1 ≠ 0) (hm1 : mask &&& 2 ≠ 0) :
    (decide (COMPONENT_Z ≤ swz 0) ≠ decide (COMPONENT_Z ≤ swz 1) →
      mir_pack_swizzle mask swz T midgard_reg_mode_64 chan = none) ∧
    (decide (COMPONENT_Z ≤ swz 0) = decide (COMPONENT_Z ≤ swz 1) →
      mir_pack_swizzle mask swz T midgard_reg_mode_64 chan =
        some (mir_pack_swizzle_64_component (swz 0) |||
              (mir_pack_swizzle_64_component (swz 1) <<< 4),
          decide (COMPONENT_Z ≤ swz 0), false)) := by
  have hpack : mir_pack_swizzle_64 swz 4 =
      some (mir_pack_swizzle_64_component (swz 0) |||
            (mir_pack_swizzle_64_component (swz 1) <<< 4)) := by
    unfold mir_pack_swizzle_64
    rw [if_pos h0, if_pos h1]
  have hm0m : mask % 2 = 1 := by
    have h' := hm0
    rw [Nat.and_one_is_mod] at h'
    omega
  constructor
  · intro hne
    have hne' : ¬ (COMPONENT_Z ≤ swz 0 ↔ COMPONENT_Z ≤ swz 1) := by
      simpa [decide_eq_decide] using hne
    simp only [mir_pack_swizzle, hsz]
    norm_num
    rw [hpack]
    simp [hm0, hm1, hm0m, hne']
  · intro heq
    have heq' : (COMPONENT_Z ≤ swz 0 ↔ COMPONENT_Z ≤ swz 1) := decide_eq_decide.mp heq
    simp only [mir_pack_swizzle, hsz]
    norm_num
    rw [hpack]
    simp [hm0, hm1, hm0m, heq']

/-- Claim C8 witness: both lanes active and both reading the lower half
(components 0 and 1) packs successfully with the replicate-low flag
recording the lower half. -/
theorem claim_C8_witness :
    (decide (COMPONENT_Z ≤ c8Swz 0) ≠ decide (COMPONENT_Z ≤ c8Swz 1) →
      mir_pack_swizzle 3 c8Swz c8T midgard_reg_mode_64 false = none) ∧
    (decide (COMPONENT_Z ≤ c8Swz 0) = decide (COMPONENT_Z ≤ c8Swz 1) →
      mir_pack_swizzle 3 c8Swz c8T midgard_reg_mode_64 false =
        some (mir_pack_swizzle_64_component (c8Swz 0) |||
              (mir_pack_swizzle_64_component (c8Swz 1) <<< 4),
          decide (COMPONENT_Z ≤ c8Swz 0), false)) :=
  claim_C8_swizzle_64_mixed_halves 3 c8Swz c8T false (by decide) (by decide)
    (by decide) (by decide) (by decide)

/-- Claim C10: a vector-ALU instruction carrying an inline constant has
its vector word's src2 field set to (((c>>8)&7) | ((c&0xFF)<<3)) << 2 for
c the low 12 bits of the constant — a different encoding from the
scalar-demotion redistribution — and the vector source-packing pass leaves
that src2 field untouched, skipping operand 1 when an inline constant is
present. -/
theorem claim_C10_vector_inline_src2
    (ins : midgard_instruction) (h : ins.has_inline_constant = true) :
    (∀ alu, vector_alu_from_instr ins = some alu →
      alu.src2 = ((((ins.inline_constant &&& 4095) >>> 8) &&& 7) |||
                  (((ins.inline_constant &&& 4095) &&& 255) <<< 3)) <<< 2) ∧
    (∀ chan alu alu2, mir_pack_vector_srcs chan ins alu = some alu2 →
      alu2.src2 = alu.src2) := by
  constructor
  · intro alu halu
    unfold vector_alu_from_instr at halu
    split at halu
    · simp at halu
    · rw [if_pos h] at halu
      injection halu with he
      rw [← he]
  · intro chan alu alu2 hsrc
    unfold mir_pack_vector_srcs at hsrc
    split at hsrc
    · simp at hsrc
    · rename_i alu0 h0
      rw [if_pos h] at hsrc
      injection hsrc with he
      rw [← he]
      split at h0
      · injection h0 with he0; rw [← he0]
      · split at h0
        · simp at h0
        · injection h0 with he0
          rw [← he0]

/-- Claim C10 witness: the inline-constant vector word of `c1Ins` and the
source-packing pass over it. -/
theorem claim_C10_witness :
    (∀ alu, vector_alu_from_instr c1Ins = some alu →
      alu.src2 = ((((c1Ins.inline_constant &&& 4095) >>> 8) &&& 7) |||
                  (((c1Ins.inline_constant &&& 4095) &&& 255) <<< 3)) <<< 2) ∧
    (∀ chan alu alu2, mir_pack_vector_srcs chan c1Ins alu = some alu2 →
      alu2.src2 = alu.src2) :=
  claim_C10_vector_inline_src2 c1Ins rfl

end MidgardEmit
